import Mathlib

/-!
Verification of the password-change route (loader and action) and the
comment-edit keyboard handler of the todo-list application, as a shallow
embedding in Lean.

The route's `action` is embedded as a pure function from a user store and a
request to an outcome; external collaborators (the argon2 hash primitive, the
Prisma user store, the cookie codec) are modelled from the contracts the
specification states for them, since their internals are out of scope.
-/

namespace TodoList

/-- Modelled from the spec: the Prisma schema is not among the provided
files.  A `User` record carries its identifier, the stored credential hash
(the `password` column the action reads and updates), and `extra`, standing
opaquely for every other persisted field of the record (name, email, ...),
which this route never touches. -/
structure User where
  id : String
  password : String
  extra : String
  deriving DecidableEq, Repr

/-- The inputs the action reads from the HTTP request: the `userId` field of
the parsed auth cookie (`none` when the cookie is missing, unparseable, or
has no `userId`; JavaScript treats the empty string as falsy, which the
action checks separately), and the `currentPassword` / `newPassword` fields
of the JSON body (`none` when absent). -/
structure Request where
  sessionUserId : Option String
  currentPassword : Option String
  newPassword : Option String
  deriving DecidableEq, Repr

/-- JavaScript falsiness of an optional string field, as used by
`if (!userId)` and `if (!currentPassword || !newPassword)`: absent or the
empty string. -/
def isFalsy : Option String → Bool
  | none => true
  | some s => s == ""

/-- Modelled from the spec: argon2 internals are out of scope ("a
memory-hard password-hashing primitive"); hashing is modelled as an
injective tagging of the plaintext. -/
def argon2hash (plaintext : String) : String :=
  "argon2id$" ++ plaintext

/-- Modelled from the spec: `verify(hash, plaintext) -> bool` succeeds
exactly when the stored hash is the hash of the plaintext. -/
def argon2verify (stored plaintext : String) : Bool :=
  stored == argon2hash plaintext

/-- Modelled from the spec's user-store collaborator contract:
`prisma.user.findUnique({ where: { id } })` returns the record with the
given id, if any. -/
def findUnique (store : List User) (uid : String) : Option User :=
  store.find? (fun u => u.id == uid)

/-- Modelled from the spec's user-store collaborator contract:
`prisma.user.update({ where: { id }, data: { password } })` replaces the
`password` field of the (unique) record with the given id and leaves
everything else unchanged. -/
def updatePassword : List User → String → String → List User
  | [], _, _ => []
  | u :: rest, uid, h =>
    if u.id = uid then { u with password := h } :: rest
    else u :: updatePassword rest uid h

/-- The observable results the action can return: a redirect to `/login`, a
400 `badRequest` with a `detail` message, or a redirect to `/` whose
`Set-Cookie` header carries a session token serialized for the given user
id. -/
inductive ActionResult where
  | redirectLogin : ActionResult
  | badRequest : String → ActionResult
  | redirectHome : String → ActionResult
  deriving DecidableEq, Repr

/-- Whether a result is the success redirect to `/`. -/
def isRedirectHome : ActionResult → Bool
  | ActionResult.redirectHome _ => true
  | _ => false

/-- The steps of the action, in source order, used to instrument the
embedding with the order in which checks and effects run. -/
inductive Step where
  | checkSession : Step
  | lookupUser : Step
  | checkPresence : Step
  | checkLength : Step
  | verifyCurrent : Step
  | updateStore : Step
  deriving DecidableEq, Repr

/-- The full sequence of steps of a successful run, in the order the source
performs them. -/
def fullTrace : List Step :=
  [Step.checkSession, Step.lookupUser, Step.checkPresence, Step.checkLength,
   Step.verifyCurrent, Step.updateStore]

/-- The action's result together with the resulting user store, the number
of store updates performed, and the trace of steps that ran. -/
structure Outcome where
  result : ActionResult
  store : List User
  updateCount : Nat
  trace : List Step
  deriving DecidableEq, Repr

/-- The `action` of the password-change route, embedded from the source:
resolve the session cookie's `userId` (falsy → redirect to `/login`), look
the user up (absent → redirect to `/login`), check both password fields are
present, check the new password's length, verify the current password
against the stored hash, then hash the new password, persist it, and
redirect home with a fresh session cookie for the same user id.  The
outcome records the store after the call, how many update calls ran, and
which steps executed. -/
def action (store : List User) (req : Request) : Outcome :=
  if isFalsy req.sessionUserId then
    { result := ActionResult.redirectLogin, store := store, updateCount := 0,
      trace := [Step.checkSession] }
  else
    let userId := req.sessionUserId.getD ""
    match findUnique store userId with
    | none =>
      { result := ActionResult.redirectLogin, store := store, updateCount := 0,
        trace := [Step.checkSession, Step.lookupUser] }
    | some user =>
      if isFalsy req.currentPassword || isFalsy req.newPassword then
        { result := ActionResult.badRequest
            "Current password and new password are required",
          store := store, updateCount := 0,
          trace := [Step.checkSession, Step.lookupUser, Step.checkPresence] }
      else
        let currentPassword := req.currentPassword.getD ""
        let newPassword := req.newPassword.getD ""
        if newPassword.length < 8 then
          { result := ActionResult.badRequest
              "New password must be at least 8 characters long",
            store := store, updateCount := 0,
            trace := [Step.checkSession, Step.lookupUser, Step.checkPresence,
                      Step.checkLength] }
        else if !argon2verify user.password currentPassword then
          { result := ActionResult.badRequest "Current password is incorrect",
            store := store, updateCount := 0,
            trace := [Step.checkSession, Step.lookupUser, Step.checkPresence,
                      Step.checkLength, Step.verifyCurrent] }
        else
          let hashedPassword := argon2hash newPassword
          { result := ActionResult.redirectHome user.id,
            store := updatePassword store user.id hashedPassword,
            updateCount := 1,
            trace := fullTrace }

/-- What the `loader` can return: a redirect to `/login`, or `null`
(allowing the page to render). -/
inductive LoaderResult where
  | redirectLogin : LoaderResult
  | renderNull : LoaderResult
  deriving DecidableEq, Repr

/-- The `loader` of the route, embedded from the source: it runs the
session check inside try/catch, redirecting to `/login` on any thrown
error and returning `null` otherwise.  `checkAuth` (whose source,
`~/lib/check-auth`, is outside the provided files) is a parameter: any
fallible session-verification function. -/
def loader (checkAuth : Request → Except String Unit) (req : Request) :
    LoaderResult :=
  match checkAuth req with
  | Except.error _ => LoaderResult.redirectLogin
  | Except.ok _ => LoaderResult.renderNull

/-- A keyboard event as the comment-edit handler reads it: the key name and
the Meta / Control modifier flags. -/
structure KeyEvent where
  key : String
  metaKey : Bool
  ctrlKey : Bool
  deriving DecidableEq, Repr

/-- The callbacks the comment-edit input can invoke. -/
inductive EditEvent where
  | confirm : EditEvent
  | cancel : EditEvent
  deriving DecidableEq, Repr

/-- The `handleKeyDown` handler of `EditCommentInput`, embedded from the
source.  `value` is the controlled text the component holds when the event
arrives (the handler does not read it).  The result lists the callbacks
invoked and whether `preventDefault` was called. -/
def handleKeyDown (_value : String) (e : KeyEvent) : List EditEvent × Bool :=
  if (e.metaKey || e.ctrlKey) && e.key == "Enter" then
    ([EditEvent.confirm], true)
  else if e.key == "Escape" then
    ([EditEvent.cancel], false)
  else
    ([], false)

/-- Concrete two-user store used to exercise the theorems below. -/
def exStore : List User :=
  [User.mk "u1" (argon2hash "oldpassword") "alice",
   User.mk "u2" (argon2hash "otherpass") "bob"]

/-- Concrete well-formed password-change request for user `u1`. -/
def exReq : Request :=
  Request.mk (some "u1") (some "oldpassword") (some "newpassword1")

theorem isFalsy_none : isFalsy none = true := rfl

theorem isFalsy_some (s : String) : isFalsy (some s) = (s == "") := rfl

theorem findUnique_id {store : List User} {uid : String} {user : User}
    (h : findUnique store uid = some user) : user.id = uid := by
  unfold findUnique at h
  have hp := List.find?_some h
  simpa using hp

theorem findUnique_decomp {store : List User} {uid : String} {user : User}
    (h : findUnique store uid = some user) :
    ∃ pre post, store = pre ++ user :: post ∧ ∀ v ∈ pre, v.id ≠ uid := by
  induction store with
  | nil => simp [findUnique] at h
  | cons a rest ih =>
    by_cases ha : a.id = uid
    · rw [findUnique, List.find?_cons_of_pos _ (by simp [ha])] at h
      obtain rfl := Option.some.inj h
      exact ⟨[], rest, rfl, by simp⟩
    · rw [findUnique, List.find?_cons_of_neg _ (by simp [ha])] at h
      obtain ⟨pre, post, hsplit, hpre⟩ := ih h
      refine ⟨a :: pre, post, by simp [hsplit], ?_⟩
      intro v hv
      rcases List.mem_cons.mp hv with rfl | hv2
      · exact ha
      · exact hpre v hv2

theorem updatePassword_append (pre post : List User) (u : User)
    (uid h : String) (hpre : ∀ v ∈ pre, v.id ≠ uid) (hu : u.id = uid) :
    updatePassword (pre ++ u :: post) uid h =
      pre ++ { u with password := h } :: post := by
  induction pre with
  | nil => simp [updatePassword, hu]
  | cons a rest ih =>
    have ha : a.id ≠ uid := hpre a (by simp)
    simp only [List.cons_append, updatePassword, if_neg ha, List.append_eq]
    rw [ih (fun v hv => hpre v (by simp [hv]))]

theorem action_ok_eq {store : List User} {req : Request} {uid : String}
    {user : User} {cp np : String}
    (hs : req.sessionUserId = some uid) (hu : uid ≠ "")
    (hf : findUnique store uid = some user)
    (hcp : req.currentPassword = some cp) (hcp0 : cp ≠ "")
    (hnp : req.newPassword = some np) (hlen : 8 ≤ np.length)
    (hv : argon2verify user.password cp = true) :
    action store req =
      { result := ActionResult.redirectHome user.id,
        store := updatePassword store user.id (argon2hash np),
        updateCount := 1,
        trace := fullTrace } := by
  have hnp0 : np ≠ "" := by
    intro h0
    subst h0
    exact absurd hlen (by decide)
  have hlen' : ¬ np.length < 8 := by omega
  simp [action, hs, hf, hcp, hnp, isFalsy_some, hu, hcp0, hnp0, hlen', hv]

/-- Claim C7: for every page-load request for which the session check
fails (throws), the loader returns a redirect to `/login`; when the check
succeeds it returns `null`, allowing rendering. -/
theorem loader_guard (checkAuth : Request → Except String Unit)
    (req : Request) :
    ((∃ e, checkAuth req = Except.error e) →
      loader checkAuth req = LoaderResult.redirectLogin) ∧
    (checkAuth req = Except.ok () →
      loader checkAuth req = LoaderResult.renderNull) := by
  constructor
  · rintro ⟨e, he⟩
    simp [loader, he]
  · intro h
    simp [loader, h]

theorem loader_guard_witness :
    ((fun _ : Request => (Except.error "boom" : Except String Unit))
        (Request.mk none none none) = Except.error "boom") ∧
    loader (fun _ => Except.error "boom") (Request.mk none none none) =
      LoaderResult.redirectLogin ∧
    loader (fun _ => Except.ok ()) (Request.mk none none none) =
      LoaderResult.renderNull :=
  ⟨rfl,
   (loader_guard (fun _ => Except.error "boom") (Request.mk none none none)).1
     ⟨"boom", rfl⟩,
   (loader_guard (fun _ => Except.ok ()) (Request.mk none none none)).2 rfl⟩

/-- Claim C8: for every keyboard event and every controlled text value,
Enter with the Control or Meta modifier invokes confirm and calls
`preventDefault` (no newline is inserted), and Escape invokes cancel. -/
theorem handleKeyDown_contract (value : String) (e : KeyEvent) :
    (e.key = "Enter" → (e.metaKey = true ∨ e.ctrlKey = true) →
      handleKeyDown value e = ([EditEvent.confirm], true)) ∧
    (e.key = "Escape" →
      handleKeyDown value e = ([EditEvent.cancel], false)) := by
  constructor
  · intro hk hm
    rcases hm with h | h <;> simp [handleKeyDown, hk, h]
  · intro hk
    simp [handleKeyDown, hk]

theorem handleKeyDown_contract_witness :
    (("Enter" : String) = "Enter" ∧ (true = true ∨ false = true) ∧
      handleKeyDown "draft text" (KeyEvent.mk "Enter" true false) =
        ([EditEvent.confirm], true)) ∧
    (("Escape" : String) = "Escape" ∧
      handleKeyDown "draft text" (KeyEvent.mk "Escape" false false) =
        ([EditEvent.cancel], false)) :=
  ⟨⟨rfl, Or.inl rfl,
    (handleKeyDown_contract "draft text" (KeyEvent.mk "Enter" true false)).1
      rfl (Or.inl rfl)⟩,
   ⟨rfl,
    (handleKeyDown_contract "draft text" (KeyEvent.mk "Escape" false false)).2
      rfl⟩⟩

/-- Claim C2: with a valid session, an existing user, both fields present
and the length check passing, a `currentPassword` that does not verify
against the stored hash yields exactly the 400 failure with detail
"Current password is incorrect", with no store update. -/
theorem action_incorrect_current_password {store : List User} {req : Request}
    {uid : String} {user : User} {cp np : String}
    (hs : req.sessionUserId = some uid) (hu : uid ≠ "")
    (hf : findUnique store uid = some user)
    (hcp : req.currentPassword = some cp) (hcp0 : cp ≠ "")
    (hnp : req.newPassword = some np) (hlen : 8 ≤ np.length)
    (hv : argon2verify user.password cp = false) :
    action store req =
      { result := ActionResult.badRequest "Current password is incorrect",
        store := store, updateCount := 0,
        trace := [Step.checkSession, Step.lookupUser, Step.checkPresence,
                  Step.checkLength, Step.verifyCurrent] } := by
  have hnp0 : np ≠ "" := by
    intro h0
    subst h0
    exact absurd hlen (by decide)
  have hlen' : ¬ np.length < 8 := by omega
  simp [action, hs, hf, hcp, hnp, isFalsy_some, hu, hcp0, hnp0, hlen', hv]

theorem action_incorrect_current_password_witness :
    exReq.sessionUserId = some "u1" ∧ ("u1" : String) ≠ "" ∧
    findUnique exStore "u1" =
      some (User.mk "u1" (argon2hash "oldpassword") "alice") ∧
    (Request.mk (some "u1") (some "wrongpass") (some "newpassword1")
      ).currentPassword = some "wrongpass" ∧
    ("wrongpass" : String) ≠ "" ∧
    (Request.mk (some "u1") (some "wrongpass") (some "newpassword1")
      ).newPassword = some "newpassword1" ∧
    8 ≤ ("newpassword1" : String).length ∧
    argon2verify (User.mk "u1" (argon2hash "oldpassword") "alice").password
      "wrongpass" = false ∧
    action exStore (Request.mk (some "u1") (some "wrongpass")
        (some "newpassword1")) =
      { result := ActionResult.badRequest "Current password is incorrect",
        store := exStore, updateCount := 0,
        trace := [Step.checkSession, Step.lookupUser, Step.checkPresence,
                  Step.checkLength, Step.verifyCurrent] } :=
  ⟨rfl, by decide, by decide, rfl, by decide, rfl, by decide, by decide,
   @action_incorrect_current_password exStore
     (Request.mk (some "u1") (some "wrongpass") (some "newpassword1")) "u1"
     (User.mk "u1" (argon2hash "oldpassword") "alice") "wrongpass"
     "newpassword1" rfl (by decide) (by decide) rfl (by decide) rfl
     (by decide) (by decide)⟩

/-- Claim C3: with a valid session and an existing user, a body missing
either password field (absent or empty) yields exactly the 400 failure
with detail "Current password and new password are required", with no
store update. -/
theorem action_missing_fields {store : List User} {req : Request}
    {uid : String} {user : User}
    (hs : req.sessionUserId = some uid) (hu : uid ≠ "")
    (hf : findUnique store uid = some user)
    (h : isFalsy req.currentPassword = true ∨
         isFalsy req.newPassword = true) :
    action store req =
      { result := ActionResult.badRequest
          "Current password and new password are required",
        store := store, updateCount := 0,
        trace := [Step.checkSession, Step.lookupUser, Step.checkPresence] }
    := by
  have hor : (isFalsy req.currentPassword || isFalsy req.newPassword) = true
      := by
    rcases h with h | h <;> simp [h]
  simp [action, hs, isFalsy_some, hu, hf, hor]

theorem action_missing_fields_witness :
    (Request.mk (some "u1") none (some "newpassword1")).sessionUserId =
      some "u1" ∧
    ("u1" : String) ≠ "" ∧
    findUnique exStore "u1" =
      some (User.mk "u1" (argon2hash "oldpassword") "alice") ∧
    (isFalsy (Request.mk (some "u1") none (some "newpassword1")
        ).currentPassword = true ∨
     isFalsy (Request.mk (some "u1") none (some "newpassword1")
        ).newPassword = true) ∧
    action exStore (Request.mk (some "u1") none (some "newpassword1")) =
      { result := ActionResult.badRequest
          "Current password and new password are required",
        store := exStore, updateCount := 0,
        trace := [Step.checkSession, Step.lookupUser, Step.checkPresence] }
    :=
  ⟨rfl, by decide, by decide, Or.inl (by decide),
   @action_missing_fields exStore
     (Request.mk (some "u1") none (some "newpassword1")) "u1"
     (User.mk "u1" (argon2hash "oldpassword") "alice") rfl (by decide)
     (by decide) (Or.inl (by decide))⟩

/-- Claim C4: with a valid session, an existing user and both fields
present, a `newPassword` shorter than 8 characters yields exactly the 400
failure with detail "New password must be at least 8 characters long",
with no store update. -/
theorem action_short_new_password {store : List User} {req : Request}
    {uid : String} {user : User} {cp np : String}
    (hs : req.sessionUserId = some uid) (hu : uid ≠ "")
    (hf : findUnique store uid = some user)
    (hcp : req.currentPassword = some cp) (hcp0 : cp ≠ "")
    (hnp : req.newPassword = some np) (hnp0 : np ≠ "")
    (hlen : np.length < 8) :
    action store req =
      { result := ActionResult.badRequest
          "New password must be at least 8 characters long",
        store := store, updateCount := 0,
        trace := [Step.checkSession, Step.lookupUser, Step.checkPresence,
                  Step.checkLength] } := by
  simp [action, hs, hf, hcp, hnp, isFalsy_some, hu, hcp0, hnp0, hlen]

theorem action_short_new_password_witness :
    (Request.mk (some "u1") (some "oldpassword") (some "short")
      ).sessionUserId = some "u1" ∧
    ("u1" : String) ≠ "" ∧
    findUnique exStore "u1" =
      some (User.mk "u1" (argon2hash "oldpassword") "alice") ∧
    (Request.mk (some "u1") (some "oldpassword") (some "short")
      ).currentPassword = some "oldpassword" ∧
    ("oldpassword" : String) ≠ "" ∧
    (Request.mk (some "u1") (some "oldpassword") (some "short")
      ).newPassword = some "short" ∧
    ("short" : String) ≠ "" ∧
    ("short" : String).length < 8 ∧
    action exStore (Request.mk (some "u1") (some "oldpassword")
        (some "short")) =
      { result := ActionResult.badRequest
          "New password must be at least 8 characters long",
        store := exStore, updateCount := 0,
        trace := [Step.checkSession, Step.lookupUser, Step.checkPresence,
                  Step.checkLength] } :=
  ⟨rfl, by decide, by decide, rfl, by decide, rfl, by decide, by decide,
   @action_short_new_password exStore
     (Request.mk (some "u1") (some "oldpassword") (some "short")) "u1"
     (User.mk "u1" (argon2hash "oldpassword") "alice") "oldpassword" "short"
     rfl (by decide) (by decide) rfl (by decide) rfl (by decide)
     (by decide)⟩

/-- Claim C6: a missing/unresolvable session `userId`, or a resolved id
with no matching user record, yields a redirect to `/login` (never an
error payload) with the store untouched and no validation, verification
or update step performed. -/
theorem action_unauthenticated_redirect (store : List User) (req : Request)
    (h : isFalsy req.sessionUserId = true ∨
         findUnique store (req.sessionUserId.getD "") = none) :
    (action store req).result = ActionResult.redirectLogin ∧
    (action store req).store = store ∧
    (action store req).updateCount = 0 ∧
    Step.checkPresence ∉ (action store req).trace ∧
    Step.checkLength ∉ (action store req).trace ∧
    Step.verifyCurrent ∉ (action store req).trace ∧
    Step.updateStore ∉ (action store req).trace := by
  by_cases hs : isFalsy req.sessionUserId = true
  · have he : action store req =
        { result := ActionResult.redirectLogin, store := store,
          updateCount := 0, trace := [Step.checkSession] } := by
      simp [action, hs]
    rw [he]
    exact ⟨rfl, rfl, rfl, by simp, by simp, by simp, by simp⟩
  · rcases h with h | hfind
    · exact absurd h hs
    · have hs' : isFalsy req.sessionUserId = false := by
        simpa using hs
      have he : action store req =
          { result := ActionResult.redirectLogin, store := store,
            updateCount := 0,
            trace := [Step.checkSession, Step.lookupUser] } := by
        simp [action, hs', hfind]
      rw [he]
      exact ⟨rfl, rfl, rfl, by simp, by simp, by simp, by simp⟩

theorem action_unauthenticated_redirect_witness :
    (isFalsy (Request.mk none none none).sessionUserId = true ∨
     findUnique exStore ((Request.mk none none none).sessionUserId.getD "")
       = none) ∧
    ((action exStore (Request.mk none none none)).result =
        ActionResult.redirectLogin ∧
     (action exStore (Request.mk none none none)).store = exStore ∧
     (action exStore (Request.mk none none none)).updateCount = 0 ∧
     Step.checkPresence ∉ (action exStore (Request.mk none none none)).trace ∧
     Step.checkLength ∉ (action exStore (Request.mk none none none)).trace ∧
     Step.verifyCurrent ∉ (action exStore (Request.mk none none none)).trace ∧
     Step.updateStore ∉ (action exStore (Request.mk none none none)).trace) :=
  ⟨Or.inl (by decide),
   action_unauthenticated_redirect exStore (Request.mk none none none)
     (Or.inl (by decide))⟩

/-- Claim C1 counterexample: all conditions of the claim as stated hold —
valid session, existing user, a `currentPassword` (the empty string, whose
stored hash is the hash of the empty password) that verifies against the
stored hash, and a `newPassword` of length at least 8 — yet the action
performs no store update and returns the presence-validation failure
rather than the success redirect, because `!currentPassword` treats the
empty string as missing. -/
theorem action_success_counterexample :
    (Request.mk (some "u1") (some "") (some "password123")).sessionUserId =
      some "u1" ∧
    findUnique [User.mk "u1" (argon2hash "") "alice"] "u1" =
      some (User.mk "u1" (argon2hash "") "alice") ∧
    argon2verify (User.mk "u1" (argon2hash "") "alice").password
      ((Request.mk (some "u1") (some "") (some "password123")
        ).currentPassword.getD "") = true ∧
    8 ≤ ((Request.mk (some "u1") (some "") (some "password123")
        ).newPassword.getD "").length ∧
    (action [User.mk "u1" (argon2hash "") "alice"]
        (Request.mk (some "u1") (some "") (some "password123"))
      ).updateCount = 0 ∧
    (action [User.mk "u1" (argon2hash "") "alice"]
        (Request.mk (some "u1") (some "") (some "password123"))).result =
      ActionResult.badRequest
        "Current password and new password are required" := by
  refine ⟨rfl, by decide, by decide, by decide, by decide, by decide⟩

/-- Claim C1 (amended): for every POST request carrying a valid session
whose user exists, a NONEMPTY `currentPassword` that verifies against the
stored hash, and a `newPassword` of length at least 8, the action performs
exactly one store update writing the hash of `newPassword` to that user's
record, the newly stored hash verifies against `newPassword`, and the
result is a redirect to `/` whose cookie is serialized for the same user
id. -/
theorem action_success_amended {store : List User} {req : Request}
    {uid : String} {user : User} {cp np : String}
    (hs : req.sessionUserId = some uid) (hu : uid ≠ "")
    (hf : findUnique store uid = some user)
    (hcp : req.currentPassword = some cp) (hcp0 : cp ≠ "")
    (hnp : req.newPassword = some np) (hlen : 8 ≤ np.length)
    (hv : argon2verify user.password cp = true) :
    (action store req).updateCount = 1 ∧
    (action store req).store = updatePassword store user.id (argon2hash np) ∧
    argon2verify (argon2hash np) np = true ∧
    (action store req).result = ActionResult.redirectHome user.id ∧
    user.id = uid := by
  have he := action_ok_eq hs hu hf hcp hcp0 hnp hlen hv
  rw [he]
  exact ⟨rfl, rfl, by simp [argon2verify], rfl, findUnique_id hf⟩

theorem action_success_amended_witness :
    exReq.sessionUserId = some "u1" ∧
    ("u1" : String) ≠ "" ∧
    findUnique exStore "u1" =
      some (User.mk "u1" (argon2hash "oldpassword") "alice") ∧
    exReq.currentPassword = some "oldpassword" ∧
    ("oldpassword" : String) ≠ "" ∧
    exReq.newPassword = some "newpassword1" ∧
    8 ≤ ("newpassword1" : String).length ∧
    argon2verify (User.mk "u1" (argon2hash "oldpassword") "alice").password
      "oldpassword" = true ∧
    ((action exStore exReq).updateCount = 1 ∧
     (action exStore exReq).store =
       updatePassword exStore
         (User.mk "u1" (argon2hash "oldpassword") "alice").id
         (argon2hash "newpassword1") ∧
     argon2verify (argon2hash "newpassword1") "newpassword1" = true ∧
     (action exStore exReq).result =
       ActionResult.redirectHome
         (User.mk "u1" (argon2hash "oldpassword") "alice").id ∧
     (User.mk "u1" (argon2hash "oldpassword") "alice").id = "u1") :=
  ⟨rfl, by decide, by decide, rfl, by decide, rfl, by decide, by decide,
   @action_success_amended exStore exReq "u1"
     (User.mk "u1" (argon2hash "oldpassword") "alice") "oldpassword"
     "newpassword1" rfl (by decide) (by decide) rfl (by decide) rfl
     (by decide) (by decide)⟩

/-- Claim C9: the action does not require the new password to differ from
the current one — with a valid session, an existing user and a correct
`currentPassword`, submitting `newPassword` equal to `currentPassword`
(of length at least 8) is accepted: one update writing the hash of the
same password, and the success redirect. -/
theorem action_same_password_accepted {store : List User} {req : Request}
    {uid : String} {user : User} {p : String}
    (hs : req.sessionUserId = some uid) (hu : uid ≠ "")
    (hf : findUnique store uid = some user)
    (hcp : req.currentPassword = some p)
    (hnp : req.newPassword = some p)
    (hlen : 8 ≤ p.length)
    (hv : argon2verify user.password p = true) :
    (action store req).result = ActionResult.redirectHome user.id ∧
    (action store req).updateCount = 1 ∧
    (action store req).store =
      updatePassword store user.id (argon2hash p) := by
  have hp0 : p ≠ "" := by
    intro h0
    subst h0
    exact absurd hlen (by decide)
  have he := action_ok_eq hs hu hf hcp hp0 hnp hlen hv
  rw [he]
  exact ⟨rfl, rfl, rfl⟩

theorem action_same_password_accepted_witness :
    (Request.mk (some "u1") (some "oldpassword") (some "oldpassword")
      ).sessionUserId = some "u1" ∧
    ("u1" : String) ≠ "" ∧
    findUnique exStore "u1" =
      some (User.mk "u1" (argon2hash "oldpassword") "alice") ∧
    (Request.mk (some "u1") (some "oldpassword") (some "oldpassword")
      ).currentPassword = some "oldpassword" ∧
    (Request.mk (some "u1") (some "oldpassword") (some "oldpassword")
      ).newPassword = some "oldpassword" ∧
    8 ≤ ("oldpassword" : String).length ∧
    argon2verify (User.mk "u1" (argon2hash "oldpassword") "alice").password
      "oldpassword" = true ∧
    ((action exStore (Request.mk (some "u1") (some "oldpassword")
        (some "oldpassword"))).result =
       ActionResult.redirectHome
         (User.mk "u1" (argon2hash "oldpassword") "alice").id ∧
     (action exStore (Request.mk (some "u1") (some "oldpassword")
        (some "oldpassword"))).updateCount = 1 ∧
     (action exStore (Request.mk (some "u1") (some "oldpassword")
        (some "oldpassword"))).store =
       updatePassword exStore
         (User.mk "u1" (argon2hash "oldpassword") "alice").id
         (argon2hash "oldpassword")) :=
  ⟨rfl, by decide, by decide, rfl, rfl, by decide, by decide,
   @action_same_password_accepted exStore
     (Request.mk (some "u1") (some "oldpassword") (some "oldpassword"))
     "u1" (User.mk "u1" (argon2hash "oldpassword") "alice") "oldpassword"
     rfl (by decide) (by decide) rfl rfl (by decide) (by decide)⟩

/-- Claim C5: in every execution, the steps that run are an initial
segment of session check, user lookup, presence validation, length
validation, credential verification, store update — so verification runs
only after both validations passed and the update only after verification
— the update step runs only on the success result, and on every
non-success result the store is unchanged with zero updates. -/
theorem action_step_order (store : List User) (req : Request) :
    (∃ n, (action store req).trace = fullTrace.take n) ∧
    (Step.updateStore ∈ (action store req).trace →
      isRedirectHome (action store req).result = true) ∧
    (isRedirectHome (action store req).result = false →
      (action store req).store = store ∧
      (action store req).updateCount = 0) := by
  simp only [action]
  split
  · exact ⟨⟨1, rfl⟩, fun h => absurd h (by simp), fun _ => ⟨rfl, rfl⟩⟩
  · split
    · exact ⟨⟨2, rfl⟩, fun h => absurd h (by simp), fun _ => ⟨rfl, rfl⟩⟩
    · split
      · exact ⟨⟨3, rfl⟩, fun h => absurd h (by simp), fun _ => ⟨rfl, rfl⟩⟩
      · split
        · exact ⟨⟨4, rfl⟩, fun h => absurd h (by simp), fun _ => ⟨rfl, rfl⟩⟩
        · split
          · exact ⟨⟨5, rfl⟩, fun h => absurd h (by simp),
              fun _ => ⟨rfl, rfl⟩⟩
          · exact ⟨⟨6, rfl⟩, fun _ => rfl,
              fun h => absurd h (by simp [isRedirectHome])⟩

theorem action_step_order_witness :
    ((∃ n, (action exStore exReq).trace = fullTrace.take n) ∧
     isRedirectHome (action exStore exReq).result = true) ∧
    ((action exStore (Request.mk none none none)).store = exStore ∧
     (action exStore (Request.mk none none none)).updateCount = 0) :=
  ⟨⟨(action_step_order exStore exReq).1,
    (action_step_order exStore exReq).2.1 (by decide)⟩,
   (action_step_order exStore (Request.mk none none none)).2.2 (by decide)⟩

/-- Claim C10: on the success path the store update rewrites exactly the
matched user's record, changing only its password field (to the hash of
the new password); all records before and after it — every record whose id
differs from the session user's — are unchanged. -/
theorem action_update_frame {store : List User} {req : Request}
    {uid : String} {user : User} {cp np : String}
    (hdist : store.Pairwise (fun a b => a.id ≠ b.id))
    (hs : req.sessionUserId = some uid) (hu : uid ≠ "")
    (hf : findUnique store uid = some user)
    (hcp : req.currentPassword = some cp) (hcp0 : cp ≠ "")
    (hnp : req.newPassword = some np) (hlen : 8 ≤ np.length)
    (hv : argon2verify user.password cp = true) :
    ∃ pre post,
      store = pre ++ user :: post ∧
      (∀ v ∈ pre, v.id ≠ user.id) ∧
      (∀ v ∈ post, v.id ≠ user.id) ∧
      (action store req).store =
        pre ++ { user with password := argon2hash np } :: post := by
  obtain ⟨pre, post, hsplit, hpre⟩ := findUnique_decomp hf
  have hid : user.id = uid := findUnique_id hf
  have hpre' : ∀ v ∈ pre, v.id ≠ user.id := fun v hv => by
    rw [hid]; exact hpre v hv
  have hpost : ∀ v ∈ post, v.id ≠ user.id := by
    rw [hsplit] at hdist
    have h2 := (List.pairwise_append.mp hdist).2.1
    have h3 := (List.pairwise_cons.mp h2).1
    exact fun v hv => (h3 v hv).symm
  have he := action_ok_eq hs hu hf hcp hcp0 hnp hlen hv
  refine ⟨pre, post, hsplit, hpre', hpost, ?_⟩
  rw [he]
  rw [hsplit]
  exact updatePassword_append pre post user user.id (argon2hash np)
    hpre' rfl

theorem action_update_frame_witness :
    exStore.Pairwise (fun a b => a.id ≠ b.id) ∧
    exReq.sessionUserId = some "u1" ∧
    ("u1" : String) ≠ "" ∧
    findUnique exStore "u1" =
      some (User.mk "u1" (argon2hash "oldpassword") "alice") ∧
    exReq.currentPassword = some "oldpassword" ∧
    ("oldpassword" : String) ≠ "" ∧
    exReq.newPassword = some "newpassword1" ∧
    8 ≤ ("newpassword1" : String).length ∧
    argon2verify (User.mk "u1" (argon2hash "oldpassword") "alice").password
      "oldpassword" = true ∧
    (∃ pre post,
      exStore = pre ++ User.mk "u1" (argon2hash "oldpassword") "alice"
        :: post ∧
      (∀ v ∈ pre,
        v.id ≠ (User.mk "u1" (argon2hash "oldpassword") "alice").id) ∧
      (∀ v ∈ post,
        v.id ≠ (User.mk "u1" (argon2hash "oldpassword") "alice").id) ∧
      (action exStore exReq).store =
        pre ++ { User.mk "u1" (argon2hash "oldpassword") "alice" with
                   password := argon2hash "newpassword1" } :: post) :=
  ⟨by simp [exStore, List.pairwise_cons], rfl, by decide, by decide, rfl,
   by decide, rfl, by decide, by decide,
   @action_update_frame exStore exReq "u1"
     (User.mk "u1" (argon2hash "oldpassword") "alice") "oldpassword"
     "newpassword1" (by simp [exStore, List.pairwise_cons]) rfl (by decide)
     (by decide) rfl (by decide) rfl (by decide) (by decide)⟩

end TodoList
